import Mathlib

/-!
Shallow embedding of the data transformation and aggregation pipeline of
`GDB.py` (a Streamlit budget dashboard).  The pipeline part of the script:

* `load_data` (lines 14-28): parse a wide CSV, rename the first column to
  "Department", melt the remaining columns into long form
  (Department, Year, Budget), coerce Budget to numeric and drop the
  non-numeric cells.
* `compute_growth` (lines 31-38): first-vs-last column growth of one row.
* lines 60-72: slider bounds (string min/max of the year labels, then
  `int(...)`) and the year-range filter over the long frame.
* lines 100-116: total-by-year groupby and the headline metrics.
* lines 132-139: top-5 departments of the latest selected year.

Modelling conventions:

* A wide-table cell is modelled by its numeric value after coercion:
  `some q` for a numeric cell, `none` for a missing or non-numeric cell
  (pandas NaN after `pd.to_numeric(errors="coerce")`).
* Python floats are modelled by `PyFloat` (`nan` or an exact rational);
  the data is currency amounts, so exact rationals are faithful.
* Python string comparison (used by `min`/`max`/`sorted`/`groupby` on the
  year labels and department names) is lexicographic by code point; it is
  embedded directly as `charListLt` over the strings' character lists.
* A pandas operation that can raise (`.iloc[0]` on an empty selection,
  `min`/`max` of an empty sequence, `int` of a non-numeric string) is
  modelled with `Option`, `none` standing for the raised exception.
-/

/-- Python float arithmetic restricted to what the script uses: either a
NaN (a missing value propagated by pandas) or an exact rational value. -/
inductive PyFloat where
  | nan : PyFloat
  | num : ℚ → PyFloat
deriving DecidableEq

/-- Subtraction of Python floats; NaN propagates. -/
def PyFloat.sub : PyFloat → PyFloat → PyFloat
  | PyFloat.num a, PyFloat.num b => PyFloat.num (a - b)
  | _, _ => PyFloat.nan

/-- Division of Python floats; NaN propagates.  Division by an exact zero
is mapped to NaN; in the script it is unreachable because the only
division (`compute_growth`) is guarded by `start != 0`. -/
def PyFloat.div : PyFloat → PyFloat → PyFloat
  | PyFloat.num a, PyFloat.num b => if b = 0 then PyFloat.nan else PyFloat.num (a / b)
  | _, _ => PyFloat.nan

/-- Multiplication of Python floats; NaN propagates. -/
def PyFloat.mul : PyFloat → PyFloat → PyFloat
  | PyFloat.num a, PyFloat.num b => PyFloat.num (a * b)
  | _, _ => PyFloat.nan

/-- The float value of a wide-table cell (`astype(float)`): a missing
cell becomes NaN. -/
def ofCell : Option ℚ → PyFloat
  | some q => PyFloat.num q
  | none => PyFloat.nan

/-- Python string `<` on the underlying character lists: lexicographic
comparison by code point. -/
def charListLt : List Char → List Char → Bool
  | [], [] => false
  | [], _ :: _ => true
  | _ :: _, [] => false
  | a :: as, b :: bs =>
    if a.toNat < b.toNat then true
    else if b.toNat < a.toNat then false
    else charListLt as bs

/-- Python string `<`. -/
def pyStrLt (a b : String) : Bool := charListLt a.data b.data

/-- Python string `<=` (equivalently, not `>`). -/
def pyStrLe (a b : String) : Bool := !(pyStrLt b a)

/-- Python `min` over a list of strings: the leftmost minimal element,
`none` when the list is empty (a raised ValueError). -/
def py_min_str : List String → Option String
  | [] => none
  | x :: xs => some (xs.foldl (fun acc y => if pyStrLt y acc then y else acc) x)

/-- Python `max` over a list of strings: the leftmost maximal element,
`none` when the list is empty (a raised ValueError). -/
def py_max_str : List String → Option String
  | [] => none
  | x :: xs => some (xs.foldl (fun acc y => if pyStrLt acc y then y else acc) x)

/-- Decimal digit value of a character, if it is a digit. -/
def digitVal? (c : Char) : Option ℕ :=
  if 48 ≤ c.toNat ∧ c.toNat ≤ 57 then some (c.toNat - 48) else none

/-- Accumulating decimal parser over a character list; fails on the first
non-digit character. -/
def parseNatAux (acc : ℕ) : List Char → Option ℕ
  | [] => some acc
  | c :: cs =>
    match digitVal? c with
    | some d => parseNatAux (acc * 10 + d) cs
    | none => none

/-- Parse a non-empty all-digit character list as a natural number. -/
def parseNat? (cs : List Char) : Option ℕ :=
  if cs = [] then none else parseNatAux 0 cs

/-- Python `int(s)` for plain decimal strings with an optional leading
minus sign; `none` models the raised ValueError. -/
def pyInt? (s : String) : Option ℤ :=
  match s.data with
  | '-' :: rest => (parseNat? rest).map (fun n => -(n : ℤ))
  | cs => (parseNat? cs).map (fun n => (n : ℤ))

/-- One data row of the wide CSV: the first-column value (the department
name) and the cells of the remaining columns, positionally aligned with
the year-column headers. -/
structure WideRow where
  dept : String
  cells : List (Option ℚ)
deriving DecidableEq

/-- The parsed wide CSV: the first column's header, the remaining
headers, and the data rows.  `pd.read_csv` guarantees the headers are
pairwise distinct (duplicates are mangled on parse). -/
structure WideTable where
  deptHeader : String
  yearHeaders : List String
  rows : List WideRow
deriving DecidableEq

/-- One row of the melted long frame, before Budget coercion filtering. -/
structure LongRow where
  department : String
  year : String
  budget : Option ℚ
deriving DecidableEq

/-- One canonical long-form record after `dropna`: the script's
Department | Year | Budget row.  The year is the column label kept as a
string (`long_df["Year"].astype(str)`, line 25). -/
structure BudgetRecord where
  department : String
  year : String
  budget : ℚ
deriving DecidableEq

/-- Column selection by name, as `df[c]` does for the melt: the cell
paired with the first header equal to `c` (headers are distinct in
practice), `none` when no such column exists. -/
def lookupCell (headers : List String) (cells : List (Option ℚ)) (c : String) : Option ℚ :=
  ((headers.zip cells).lookup c).join

/-- Model of `df.rename(columns=\x7bdf.columns[0]: new\x7d)`: pandas renames
by name, so every column whose header equals the first column's header is
renamed. -/
def renameFirst (t : WideTable) (new : String) : WideTable :=
  { deptHeader := new
    yearHeaders := t.yearHeaders.map (fun c => if c = t.deptHeader then new else c)
    rows := t.rows }

/-- Model of `df.melt(id_vars="Department", value_vars=value_vars,
var_name="Year", value_name="Budget")`: one output block per value
column, in order, each block listing the rows in order. -/
def melt (t : WideTable) (value_vars : List String) : List LongRow :=
  value_vars.flatMap (fun c =>
    t.rows.map (fun r => ⟨r.dept, c, lookupCell t.yearHeaders r.cells c⟩))

/-- Model of `load_data` (lines 14-28): rename the first column to
"Department", take every other column as a year column, melt to long
form, coerce Budget and drop the rows whose Budget is not numeric.
Returns the (renamed) wide table, the record set and the year columns. -/
def load_data (t : WideTable) : WideTable × List BudgetRecord × List String :=
  let df := renameFirst t "Department"
  let year_cols := df.yearHeaders.filter (fun c => c ≠ "Department")
  let long_df := melt df year_cols
  let records := long_df.filterMap (fun l => l.budget.map (fun b => ⟨l.department, l.year, b⟩))
  (df, records, year_cols)

/-- Model of `compute_growth` (lines 31-38) applied to the float values
of one department row over the year columns.  `values[0]` / `values[-1]`
are total here (the script's year-column list is never empty when this
runs); `pct_change` is `None` exactly when the start is an exact zero
(`start != 0` is true for NaN, so NaN flows into the formula). -/
def compute_growth (values : List PyFloat) : PyFloat × PyFloat × PyFloat × Option PyFloat :=
  let start := values.headD PyFloat.nan
  let endv := values.getLastD PyFloat.nan
  let absolute_change := endv.sub start
  let pct_change :=
    if start = PyFloat.num 0 then none
    else some ((absolute_change.div start).mul (PyFloat.num 100))
  (start, endv, absolute_change, pct_change)

/-- Python `range(a, b)` over integers. -/
def pyRange (a b : ℤ) : List ℤ :=
  (List.range (b - a).toNat).map (fun (i : ℕ) => a + (i : ℤ))

/-- Line 71: `[str(y) for y in range(a, b + 1)]`. -/
def selected_years (a b : ℤ) : List String :=
  (pyRange a (b + 1)).map toString

/-- Line 72: keep the records whose year label is one of the selected
year strings. -/
def filtered_long (recs : List BudgetRecord) (a b : ℤ) : List BudgetRecord :=
  recs.filter (fun r => (selected_years a b).contains r.year)

/-- Lines 60-68: slider bounds.  Python `min`/`max` over the year-column
labels (string order; ValueError on an empty list), then `int(...)` on
the two labels (ValueError if not numeric). -/
def slider_bounds (year_cols : List String) : Option (ℤ × ℤ) :=
  match py_min_str year_cols, py_max_str year_cols with
  | some mn, some mx => (pyInt? mn).bind (fun a => (pyInt? mx).map (fun b => (a, b)))
  | _, _ => none

/-- Sum of the Budget column of a record list. -/
def budget_sum (recs : List BudgetRecord) : ℚ :=
  (recs.map (fun r => r.budget)).sum

/-- The comparison `pandas.groupby(sort=True)` applies to string group
keys: Python string order. -/
def strOrd (a b : String) : Prop := pyStrLe a b = true

instance : DecidableRel strOrd := fun a b => by unfold strOrd; infer_instance

/-- Lines 101-104: `groupby("Year")["Budget"].sum().sort_values("Year")`.
`groupby` with the default `sort=True` lists the distinct keys in
ascending order and sums each group; the subsequent stable
`sort_values("Year")` leaves that order unchanged. -/
def total_by_year (recs : List BudgetRecord) : List (String × ℚ) :=
  (List.insertionSort strOrd (recs.map (fun r => r.year)).dedup).map
    (fun y => (y, budget_sum (recs.filter (fun r => r.year = y))))

/-- The lookup `tby[tby["Year"] == y]["Budget"].iloc[0]` (lines 108-109):
the Budget of the first row whose Year is `y`; `none` models the
IndexError raised when no row matches. -/
def lookupTotal (tby : List (String × ℚ)) (y : String) : Option ℚ :=
  (tby.find? (fun p => p.1 = y)).map (fun p => p.2)

/-- Lines 108-116: the headline metrics of the overview tab: first-year
total, latest-year total, absolute change, percent change (0 by the
`else 0` branch when the first-year total is zero).  `none` models an
exception escaping from `max`/`min` of an empty selection or from
`.iloc[0]` on a year with no records. -/
def headline (recs : List BudgetRecord) (a b : ℤ) : Option (ℚ × ℚ × ℚ × ℚ) :=
  let sel := selected_years a b
  let tby := total_by_year (filtered_long recs a b)
  match py_max_str sel, py_min_str sel with
  | some mx, some mn =>
    match lookupTotal tby mx, lookupTotal tby mn with
    | some latest, some first =>
      some (first, latest, latest - first,
        if first ≠ 0 then (latest - first) / first * 100 else 0)
    | _, _ => none
  | _, _ => none

/-- Descending comparison on (Department, Budget) pairs used by
`sort_values("Budget", ascending=False)`. -/
def budgetGe (p q : String × ℚ) : Prop := q.2 ≤ p.2

instance : DecidableRel budgetGe := fun p q => by unfold budgetGe; infer_instance

/-- The `groupby("Department")["Budget"].sum()` step of lines 134-136:
distinct department keys in ascending string order, each with the sum of
its budgets. -/
def group_sum_by_dept (recs : List BudgetRecord) : List (String × ℚ) :=
  (List.insertionSort strOrd (recs.map (fun r => r.department)).dedup).map
    (fun d => (d, budget_sum (recs.filter (fun r => r.department = d))))

/-- Lines 133-139 generalized over the year and the truncation length:
restrict to the given year, group-sum by department, sort descending by
Budget and truncate.  `sort_values("Budget", ascending=False)` uses
numpy's default quicksort, which is deterministic for a given input but
documented as NOT stable: the relative order of rows with equal Budget
is implementation-defined.  An executable embedding must pick some
concrete sort; insertion sort is used here, and nothing proved below
about `top_n` depends on the tie order this choice induces. -/
def top_n (recs : List BudgetRecord) (year : String) (n : ℕ) : List (String × ℚ) :=
  (List.insertionSort budgetGe (group_sum_by_dept (recs.filter (fun r => r.year = year)))).take n

/-- Lines 132-139 as written: the top five departments of a year. -/
def top5 (recs : List BudgetRecord) (year : String) : List (String × ℚ) :=
  top_n recs year 5

/-- Lines 169-179 (department tab): the growth metrics of the selected
department, computed from the WIDE table's row and the FULL year-column
list, independent of the year-range filter. -/
def dept_growth (t : WideTable) (dept : String) :
    Option (PyFloat × PyFloat × PyFloat × Option PyFloat) :=
  ((load_data t).1.rows.find? (fun r => r.dept = dept)).map (fun r =>
    compute_growth ((load_data t).2.2.map
      (fun c => ofCell (lookupCell (load_data t).1.yearHeaders r.cells c))))

/-- Lines 170-171 (department tab): the filtered long rows of the
selected department, sorted by year label. -/
def dept_long (t : WideTable) (a b : ℤ) (dept : String) : List BudgetRecord :=
  List.insertionSort (fun r s : BudgetRecord => strOrd r.year s.year)
    ((filtered_long (load_data t).2.1 a b).filter (fun r => r.department = dept))

/-- The department tab's computed data (lines 161-189): the growth
metrics (from the full year range) and the chart data (from the filtered
range). -/
def tab_dept (t : WideTable) (a b : ℤ) (dept : String) :
    (Option (PyFloat × PyFloat × PyFloat × Option PyFloat)) × List BudgetRecord :=
  (dept_growth t dept, dept_long t a b dept)

example : pyStrLt "1000" "999" = true := by decide
example : py_min_str ["999", "1000"] = some "1000" := by decide
example : pyInt? "1000" = some 1000 := by decide
example : pyInt? "-37" = some (-37) := by decide
example : pyInt? "12a" = none := by decide
example : selected_years 2014 2016 = ["2014", "2015", "2016"] := by decide
example :
    load_data ⟨"X", ["2014", "2015"], [⟨"A", [some 1, none]⟩]⟩ =
      (⟨"Department", ["2014", "2015"], [⟨"A", [some 1, none]⟩]⟩,
        [⟨"A", "2014", 1⟩], ["2014", "2015"]) := by decide
example :
    total_by_year [⟨"A", "2014", 100⟩, ⟨"A", "2015", 200⟩, ⟨"B", "2014", 50⟩,
      ⟨"B", "2015", 150⟩] = [("2014", 150), ("2015", 350)] := by with_unfolding_all rfl
example :
    top5 [⟨"A", "2014", 100⟩, ⟨"B", "2014", 200⟩] "2014" = [("B", 200), ("A", 100)] := by
  with_unfolding_all rfl
example : compute_growth [PyFloat.num 0, PyFloat.num 100] =
    (PyFloat.num 0, PyFloat.num 100, PyFloat.num 100, none) := by with_unfolding_all rfl
example : headline [⟨"A", "2014", 1⟩] 2014 2015 = none := by with_unfolding_all rfl
example : headline [⟨"A", "2014", 1⟩, ⟨"A", "2015", 3⟩] 2014 2015 =
    some (1, 3, 2, 200) := by with_unfolding_all rfl

/-!
Order-theoretic facts about the embedded Python string comparison.
-/

theorem charListLt_irrefl : ∀ l : List Char, charListLt l l = false
  | [] => rfl
  | a :: as => by
    simp [charListLt, charListLt_irrefl as]

theorem charListLt_cons_iff (a b : Char) (as bs : List Char) :
    charListLt (a :: as) (b :: bs) = true ↔
      a.toNat < b.toNat ∨ (a.toNat = b.toNat ∧ charListLt as bs = true) := by
  simp only [charListLt]
  by_cases h1 : a.toNat < b.toNat
  · simp [h1]
  · by_cases h2 : b.toNat < a.toNat
    · simp [h1, h2]
      omega
    · have he : a.toNat = b.toNat := by omega
      simp [h1, h2, he]

theorem charListLt_asymm : ∀ {l m : List Char},
    charListLt l m = true → charListLt m l = false
  | [], [], h => by simp [charListLt] at h
  | [], _ :: _, _ => rfl
  | _ :: _, [], h => by simp [charListLt] at h
  | a :: as, b :: bs, h => by
    rw [charListLt_cons_iff] at h
    rw [Bool.eq_false_iff, Ne, charListLt_cons_iff]
    rcases h with h | ⟨he, h⟩
    · rintro (h' | ⟨he', _⟩) <;> omega
    · rintro (h' | ⟨_, h'⟩)
      · omega
      · have := charListLt_asymm h
        simp_all

theorem charListLt_trans : ∀ {l m k : List Char},
    charListLt l m = true → charListLt m k = true → charListLt l k = true
  | [], [], _, h, _ => by simp [charListLt] at h
  | [], _ :: _, [], _, h => by simp [charListLt] at h
  | [], _ :: _, _ :: _, _, _ => rfl
  | _ :: _, [], _, h, _ => by simp [charListLt] at h
  | _ :: _, _ :: _, [], _, h => by simp [charListLt] at h
  | a :: as, b :: bs, c :: cs, h1, h2 => by
    rw [charListLt_cons_iff] at h1 h2 ⊢
    rcases h1 with h1 | ⟨he1, h1⟩ <;> rcases h2 with h2 | ⟨he2, h2⟩
    · exact Or.inl (by omega)
    · exact Or.inl (by omega)
    · exact Or.inl (by omega)
    · exact Or.inr ⟨by omega, charListLt_trans h1 h2⟩

theorem charListLt_eq_of_not : ∀ {l m : List Char},
    charListLt l m = false → charListLt m l = false → l = m
  | [], [], _, _ => rfl
  | [], _ :: _, h, _ => by simp [charListLt] at h
  | _ :: _, [], _, h => by simp [charListLt] at h
  | a :: as, b :: bs, h1, h2 => by
    rw [Bool.eq_false_iff, Ne, charListLt_cons_iff] at h1 h2
    push_neg at h1 h2
    have hab : a.toNat = b.toNat := by
      have u1 := h1.1
      have u2 := h2.1
      omega
    have ha : a = b := by
      unfold Char.toNat at hab
      apply Char.eq_of_val_eq
      apply UInt32.eq_of_val_eq
      exact Fin.ext hab
    have t1 : charListLt as bs = false := Bool.eq_false_iff.mpr (h1.2 hab)
    have t2 : charListLt bs as = false := Bool.eq_false_iff.mpr (h2.2 hab.symm)
    subst ha
    exact congrArg (a :: ·) (charListLt_eq_of_not t1 t2)

theorem pyStrLt_asymm {a b : String} (h : pyStrLt a b = true) : pyStrLt b a = false :=
  charListLt_asymm h

theorem pyStrLt_trans {a b c : String} (h1 : pyStrLt a b = true)
    (h2 : pyStrLt b c = true) : pyStrLt a c = true :=
  charListLt_trans h1 h2

theorem eq_of_not_pyStrLt {a b : String} (h1 : pyStrLt a b = false)
    (h2 : pyStrLt b a = false) : a = b :=
  String.ext (charListLt_eq_of_not h1 h2)

theorem strOrd_iff {a b : String} : strOrd a b ↔ pyStrLt b a = false := by
  unfold strOrd pyStrLe
  cases h : pyStrLt b a <;> simp

theorem strOrd_total (a b : String) : strOrd a b ∨ strOrd b a := by
  rw [strOrd_iff, strOrd_iff]
  cases h : pyStrLt b a
  · exact Or.inl rfl
  · exact Or.inr (pyStrLt_asymm h)

theorem strOrd_trans {a b c : String} (h1 : strOrd a b) (h2 : strOrd b c) :
    strOrd a c := by
  rw [strOrd_iff] at h1 h2 ⊢
  rcases Bool.eq_false_or_eq_true (pyStrLt a b) with hab | hab
  · rcases Bool.eq_false_or_eq_true (pyStrLt b c) with hbc | hbc
    · exact pyStrLt_asymm (pyStrLt_trans hab hbc)
    · have hq : b = c := eq_of_not_pyStrLt hbc h2
      subst hq
      exact h1
  · have hq : a = b := eq_of_not_pyStrLt hab h1
    subst hq
    exact h2

theorem strOrd_antisymm {a b : String} (h1 : strOrd a b) (h2 : strOrd b a) :
    a = b := by
  rw [strOrd_iff] at h1 h2
  exact eq_of_not_pyStrLt h2 h1

instance : IsTotal String strOrd := ⟨strOrd_total⟩

instance : IsTrans String strOrd := ⟨fun _ _ _ => strOrd_trans⟩

instance : IsAntisymm String strOrd := ⟨fun _ _ => strOrd_antisymm⟩

theorem pyStrLt_of_strOrd_of_ne {a b : String} (h : strOrd a b) (hne : a ≠ b) :
    pyStrLt a b = true := by
  rw [strOrd_iff] at h
  rcases Bool.eq_false_or_eq_true (pyStrLt a b) with hab | hab
  · exact hab
  · exact absurd (eq_of_not_pyStrLt hab h) hne

/-!
The year-range filter (claim C2).
-/

theorem mem_pyRange {a b y : ℤ} : y ∈ pyRange a b ↔ a ≤ y ∧ y < b := by
  unfold pyRange
  simp only [List.mem_map, List.mem_range]
  constructor
  · rintro ⟨i, hi, rfl⟩
    omega
  · rintro ⟨h1, h2⟩
    exact ⟨(y - a).toNat, by omega, by omega⟩

theorem mem_selected_years {a b : ℤ} {s : String} :
    s ∈ selected_years a b ↔ ∃ y : ℤ, a ≤ y ∧ y ≤ b ∧ s = toString y := by
  unfold selected_years
  simp only [List.mem_map, mem_pyRange]
  constructor
  · rintro ⟨y, ⟨h1, h2⟩, rfl⟩
    exact ⟨y, h1, by omega, rfl⟩
  · rintro ⟨y, h1, h2, rfl⟩
    exact ⟨y, ⟨h1, by omega⟩, rfl⟩

theorem mem_filtered_long {recs : List BudgetRecord} {a b : ℤ} {r : BudgetRecord} :
    r ∈ filtered_long recs a b ↔ r ∈ recs ∧ r.year ∈ selected_years a b := by
  unfold filtered_long
  rw [List.mem_filter]
  simp [List.contains, List.elem_iff]

/-- Claim C2: the year-range filter with bounds (a, b) keeps exactly the
records whose year label is the decimal string of an integer in the
inclusive interval [a, b]; it is idempotent; widening the bounds to
[a-1, b+1] only enlarges the result; and a selection matching no record
year yields the empty record set (not an error). -/
theorem spec_C2 (recs : List BudgetRecord) (a b : ℤ) :
    (∀ r : BudgetRecord, r ∈ filtered_long recs a b ↔
      r ∈ recs ∧ ∃ y : ℤ, a ≤ y ∧ y ≤ b ∧ r.year = toString y)
    ∧ filtered_long (filtered_long recs a b) a b = filtered_long recs a b
    ∧ filtered_long recs a b ⊆ filtered_long recs (a - 1) (b + 1)
    ∧ ((∀ r ∈ recs, ∀ y : ℤ, a ≤ y → y ≤ b → r.year ≠ toString y) →
        filtered_long recs a b = []) := by
  refine ⟨?_, ?_, ?_, ?_⟩
  · intro r
    rw [mem_filtered_long, mem_selected_years]
  · unfold filtered_long
    rw [List.filter_filter]
    simp
  · apply List.Sublist.subset
    apply List.monotone_filter_right
    intro r hr
    have h1 : r.year ∈ selected_years a b := by
      simpa [List.contains, List.elem_iff] using hr
    rw [mem_selected_years] at h1
    obtain ⟨y, hy1, hy2, hy3⟩ := h1
    simp only [List.contains, List.elem_iff]
    exact mem_selected_years.mpr ⟨y, by omega, by omega, hy3⟩
  · intro h
    unfold filtered_long
    rw [List.filter_eq_nil_iff]
    intro r hr
    simp only [List.contains, List.elem_iff, Bool.not_eq_true]
    intro hmem
    rw [mem_selected_years] at hmem
    obtain ⟨y, hy1, hy2, hy3⟩ := hmem
    exact h r hr y hy1 hy2 hy3

/-- Witness for C2 at a concrete record set and bounds. -/
theorem spec_C2_witness :
    (⟨"A", "2014", 1⟩ : BudgetRecord) ∈ filtered_long [⟨"A", "2014", 1⟩] 2014 2015
    ∧ filtered_long (filtered_long [⟨"A", "2014", 1⟩] 2014 2015) 2014 2015 =
        filtered_long [⟨"A", "2014", 1⟩] 2014 2015 := by
  constructor
  · exact ((spec_C2 [⟨"A", "2014", 1⟩] 2014 2015).1 _).mpr
      ⟨List.mem_singleton.mpr rfl, 2014, by decide, by decide, by decide⟩
  · exact (spec_C2 [⟨"A", "2014", 1⟩] 2014 2015).2.1

/-!
Total-by-year (claim C3).
-/

theorem total_by_year_keys (recs : List BudgetRecord) :
    (total_by_year recs).map Prod.fst =
      List.insertionSort strOrd (recs.map (fun r => r.year)).dedup := by
  unfold total_by_year
  rw [List.map_map]
  exact List.map_id _

/-- Claim C3: total-by-year is sorted ascending by year label, its keys
are exactly the years occurring in the record set, each total is the sum
of the budgets of that year across all departments, and on the concrete
two-department example it evaluates as the specification states. -/
theorem spec_C3 (recs : List BudgetRecord) :
    List.Sorted (fun p q : String × ℚ => strOrd p.1 q.1) (total_by_year recs)
    ∧ (∀ y : String, y ∈ (total_by_year recs).map Prod.fst ↔ ∃ r ∈ recs, r.year = y)
    ∧ (∀ p ∈ total_by_year recs,
        p.2 = budget_sum (recs.filter (fun r => r.year = p.1)))
    ∧ total_by_year [⟨"A", "2014", 100⟩, ⟨"A", "2015", 200⟩, ⟨"B", "2014", 50⟩,
        ⟨"B", "2015", 150⟩] = [("2014", 150), ("2015", 350)] := by
  refine ⟨?_, ?_, ?_, by with_unfolding_all rfl⟩
  · unfold total_by_year
    rw [List.Sorted, List.pairwise_map]
    exact List.sorted_insertionSort strOrd _
  · intro y
    rw [total_by_year_keys]
    rw [(List.perm_insertionSort strOrd _).mem_iff, List.mem_dedup, List.mem_map]
  · intro p hp
    unfold total_by_year at hp
    rw [List.mem_map] at hp
    obtain ⟨y, _, rfl⟩ := hp
    rfl

/-- Witness for C3: the general sum characterization applied to the
concrete example record set at the pair (2014, 150). -/
theorem spec_C3_witness :
    ("2014", (150 : ℚ)) ∈ total_by_year [⟨"A", "2014", 100⟩, ⟨"A", "2015", 200⟩,
        ⟨"B", "2014", 50⟩, ⟨"B", "2015", 150⟩]
    ∧ (150 : ℚ) = budget_sum (([⟨"A", "2014", 100⟩, ⟨"A", "2015", 200⟩,
        ⟨"B", "2014", 50⟩, ⟨"B", "2015", 150⟩] : List BudgetRecord).filter
          (fun r => r.year = "2014")) := by
  have hmem : ("2014", (150 : ℚ)) ∈ total_by_year [⟨"A", "2014", 100⟩,
      ⟨"A", "2015", 200⟩, ⟨"B", "2014", 50⟩, ⟨"B", "2015", 150⟩] := by
    rw [(spec_C3 []).2.2.2]
    exact List.mem_cons_self _ _
  exact ⟨hmem, (spec_C3 _).2.2.1 _ hmem⟩

/-!
Per-department growth (claims C4 and C5).
-/

/-- Claim C4: the department tab's growth metric does not depend on the
year-range filter, and it is computed from the department's wide row over
the full year-column list: start is the cell of the FIRST year column,
end the cell of the LAST year column, with the absolute and percent
change formulas of `compute_growth`. -/
theorem spec_C4 (t : WideTable) (a b a' b' : ℤ) (dept : String) (row : WideRow)
    (hrow : (load_data t).1.rows.find? (fun r => r.dept = dept) = some row)
    (hyc : (load_data t).2.2 ≠ []) :
    (tab_dept t a b dept).1 = (tab_dept t a' b' dept).1
    ∧ ∃ s e ac pc, (tab_dept t a b dept).1 = some (s, e, ac, pc)
      ∧ s = ofCell (lookupCell (load_data t).1.yearHeaders row.cells
          ((load_data t).2.2.head hyc))
      ∧ e = ofCell (lookupCell (load_data t).1.yearHeaders row.cells
          ((load_data t).2.2.getLast hyc))
      ∧ ac = e.sub s
      ∧ pc = (if s = PyFloat.num 0 then none
              else some ((ac.div s).mul (PyFloat.num 100))) := by
  constructor
  · rfl
  · have hg : (tab_dept t a b dept).1 = dept_growth t dept := rfl
    rw [hg]
    unfold dept_growth
    rw [hrow]
    simp only [Option.map_some']
    unfold compute_growth
    refine ⟨_, _, _, _, rfl, ?_, ?_, rfl, rfl⟩
    · rw [List.headD_eq_head?, List.head?_map, List.head?_eq_head hyc]
      rfl
    · rw [List.getLastD_eq_getLast?, List.getLast?_map,
        List.getLast?_eq_getLast _ hyc]
      rfl

/-- Witness for C4 at a concrete one-department table: two different
filter ranges give the same growth metric, whose value is also computed
explicitly. -/
theorem spec_C4_witness :
    (tab_dept ⟨"X", ["2014", "2015"], [⟨"A", [some 1, some 3]⟩]⟩ 2014 2015 "A").1 =
      (tab_dept ⟨"X", ["2014", "2015"], [⟨"A", [some 1, some 3]⟩]⟩ 2015 2015 "A").1
    ∧ (tab_dept ⟨"X", ["2014", "2015"], [⟨"A", [some 1, some 3]⟩]⟩ 2014 2015 "A").1 =
        some (PyFloat.num 1, PyFloat.num 3, PyFloat.num 2, some (PyFloat.num 200)) := by
  refine ⟨(spec_C4 ⟨"X", ["2014", "2015"], [⟨"A", [some 1, some 3]⟩]⟩ 2014 2015 2015 2015
    "A" ⟨"A", [some 1, some 3]⟩ rfl (by decide)).1, ?_⟩
  with_unfolding_all rfl

/-- Claim C5: the two zero-start percent-change policies.  In
`compute_growth`, a start of exactly 0 yields `percent_change = None`
(no exception, no infinity); in the headline metrics, a first-year total
of 0 yields a percent change of 0 by the explicit `else 0` branch. -/
theorem spec_C5 :
    (∀ values : List PyFloat, values.headD PyFloat.nan = PyFloat.num 0 →
      values.getLastD PyFloat.nan = PyFloat.num 100 →
      compute_growth values =
        (PyFloat.num 0, PyFloat.num 100, PyFloat.num 100, none))
    ∧ (∀ (recs : List BudgetRecord) (a b : ℤ) (f l ac p : ℚ),
        headline recs a b = some (f, l, ac, p) → f = 0 → p = 0) := by
  constructor
  · intro values h1 h2
    unfold compute_growth
    rw [h1, h2]
    norm_num [PyFloat.sub]
  · intro recs a b f l ac p h hf
    unfold headline at h
    dsimp only at h
    split at h
    · split at h
      · rw [Option.some_inj, Prod.mk.injEq, Prod.mk.injEq, Prod.mk.injEq] at h
        obtain ⟨hf', hl, hac, hp⟩ := h
        subst hf'
        rw [hf] at hp
        simpa using hp.symm
      · exact absurd h (by simp)
    · exact absurd h (by simp)

/-- Witness for C5: the zero-start growth metric on concrete values, and
the headline metrics of a record set whose first-year total is zero. -/
theorem spec_C5_witness :
    compute_growth [PyFloat.num 0, PyFloat.num 100] =
      (PyFloat.num 0, PyFloat.num 100, PyFloat.num 100, none)
    ∧ headline [⟨"A", "2014", 0⟩, ⟨"A", "2015", 100⟩] 2014 2015 =
        some (0, 100, 100, 0)
    ∧ (0 : ℚ) = 0 := by
  refine ⟨spec_C5.1 _ rfl rfl, by with_unfolding_all rfl, ?_⟩
  exact spec_C5.2 [⟨"A", "2014", 0⟩, ⟨"A", "2015", 100⟩] 2014 2015 0 100 100 0
    (by with_unfolding_all rfl) rfl

/-!
Totality of the aggregation layer (claim C7).
-/

/-- Counterexample for C7 as stated: on a valid record set in which the
latest selected year (2015) has no record, the headline-metric
computation does not produce a result; the modelled `none` is the
IndexError raised by `.iloc[0]` on the empty year-2015 selection. -/
theorem spec_C7_counterexample :
    headline [⟨"A", "2014", 1⟩] 2014 2015 = none := by
  with_unfolding_all rfl

theorem lookupTotal_of_mem {recs : List BudgetRecord} {y : String}
    (h : ∃ r ∈ recs, r.year = y) :
    ∃ q, lookupTotal (total_by_year recs) y = some q := by
  have hk : y ∈ (total_by_year recs).map Prod.fst := by
    rw [total_by_year_keys, (List.perm_insertionSort strOrd _).mem_iff,
      List.mem_dedup, List.mem_map]
    obtain ⟨r, hr, hy⟩ := h
    exact ⟨r, hr, hy⟩
  rw [List.mem_map] at hk
  obtain ⟨p, hp, hy⟩ := hk
  unfold lookupTotal
  have : (List.find? (fun q => q.1 = y) (total_by_year recs)).isSome = true := by
    rw [List.find?_isSome]
    exact ⟨p, hp, by simp [hy]⟩
  obtain ⟨q, hq⟩ := Option.isSome_iff_exists.mp this
  exact ⟨q.2, by rw [hq]; rfl⟩

/-- Amended C7: the pure aggregation operations (year filter,
total-by-year, top-N) always produce a possibly-empty result — a
selection matching no record degrades to empty outputs — but the
headline first/latest-year totals are only produced when the filtered
record set has records for both the string-max and the string-min
selected year; `spec_C7_counterexample` shows the lookup failing
(an IndexError) otherwise. -/
theorem spec_C7 (recs : List BudgetRecord) (a b : ℤ) :
    ((∀ r ∈ recs, r.year ∉ selected_years a b) →
      filtered_long recs a b = []
      ∧ total_by_year (filtered_long recs a b) = []
      ∧ ∀ y n, top_n (filtered_long recs a b) y n = [])
    ∧ (∀ mx mn, py_max_str (selected_years a b) = some mx →
        py_min_str (selected_years a b) = some mn →
        (∃ r ∈ filtered_long recs a b, r.year = mx) →
        (∃ r ∈ filtered_long recs a b, r.year = mn) →
        ∃ v, headline recs a b = some v) := by
  constructor
  · intro h
    have hf : filtered_long recs a b = [] := by
      unfold filtered_long
      rw [List.filter_eq_nil_iff]
      intro r hr
      simp only [List.contains, List.elem_iff, Bool.not_eq_true]
      exact h r hr
    refine ⟨hf, ?_, ?_⟩
    · rw [hf]
      rfl
    · intro y n
      rw [hf]
      unfold top_n group_sum_by_dept
      simp
  · intro mx mn hmx hmn hx hn
    obtain ⟨qx, hqx⟩ := lookupTotal_of_mem hx
    obtain ⟨qn, hqn⟩ := lookupTotal_of_mem hn
    refine ⟨(qn, qx, qx - qn, if qn ≠ 0 then (qx - qn) / qn * 100 else 0), ?_⟩
    unfold headline
    dsimp only
    rw [hmx, hmn]
    dsimp only
    rw [hqx, hqn]

/-- Witness for C7: with both selected years present the headline is
produced, and on a record set disjoint from the selection the filter and
aggregations are empty. -/
theorem spec_C7_witness :
    (∃ v, headline [⟨"A", "2014", 1⟩, ⟨"A", "2015", 3⟩] 2014 2015 = some v)
    ∧ filtered_long [⟨"A", "2010", 1⟩] 2014 2015 = [] := by
  constructor
  · exact (spec_C7 [⟨"A", "2014", 1⟩, ⟨"A", "2015", 3⟩] 2014 2015).2 "2015" "2014"
      (by decide) (by decide)
      ⟨⟨"A", "2015", 3⟩, by with_unfolding_all decide⟩
      ⟨⟨"A", "2014", 1⟩, by with_unfolding_all decide⟩
  · exact ((spec_C7 [⟨"A", "2010", 1⟩] 2014 2015).1 (by decide)).1

/-!
Ingestion of structurally deficient inputs (claim C8).
-/

/-- Counterexample for C8 as stated: on a one-column input (no year
columns at all) ingestion does not fail — `load_data` returns normally
with an empty year-column list and an empty record set; there is no
MalformedInputError anywhere in the script.  The pipeline only fails
afterwards, at the slider-bound computation (`min`/`max` of the empty
year-column list raises ValueError, modelled by `none`). -/
theorem spec_C8_counterexample :
    load_data ⟨"Dept", [], [⟨"A", []⟩]⟩ =
      (⟨"Department", [], [⟨"A", []⟩]⟩, [], [])
    ∧ slider_bounds (load_data ⟨"Dept", [], [⟨"A", []⟩]⟩).2.2 = none := by
  constructor
  · rfl
  · rfl

/-- Amended C8: ingestion performs no structural validation.  Any input
with no year columns loads successfully into an empty record set and an
empty year-column list, and the pipeline then stops at the year-range
control, where Python `min`/`max` of the empty year-column list raises a
ValueError (not a MalformedInputError, and not during ingestion). -/
theorem spec_C8 (t : WideTable) (h : t.yearHeaders = []) :
    (load_data t).2.1 = []
    ∧ (load_data t).2.2 = []
    ∧ slider_bounds (load_data t).2.2 = none := by
  obtain ⟨dh, yh, rows⟩ := t
  simp only at h
  subst h
  exact ⟨rfl, rfl, rfl⟩

/-- Witness for C8 at a concrete one-column table. -/
theorem spec_C8_witness :
    (load_data ⟨"Dept", [], [⟨"A", []⟩, ⟨"B", []⟩]⟩).2.1 = []
    ∧ (load_data ⟨"Dept", [], [⟨"A", []⟩, ⟨"B", []⟩]⟩).2.2 = []
    ∧ slider_bounds (load_data ⟨"Dept", [], [⟨"A", []⟩, ⟨"B", []⟩]⟩).2.2 = none :=
  spec_C8 ⟨"Dept", [], [⟨"A", []⟩, ⟨"B", []⟩]⟩ rfl

/-!
Year labels are strings, not integers (claim C9).
-/

/-- Counterexample for C9 as stated: with year-column labels "999" and
"1000", the script's `min(year_cols)` (line 60, Python string order)
returns "1000", although the label "999" is present and its integer
value 999 is smaller than 1000 — the min/max operations are NOT performed
on integer-coerced labels and do not agree with integer order. -/
theorem spec_C9_counterexample :
    (load_data ⟨"Dept", ["999", "1000"], [⟨"A", [some 1, some 2]⟩]⟩).2.2 =
      ["999", "1000"]
    ∧ py_min_str
        (load_data ⟨"Dept", ["999", "1000"], [⟨"A", [some 1, some 2]⟩]⟩).2.2 =
        some "1000"
    ∧ pyInt? "1000" = some 1000
    ∧ pyInt? "999" = some 999
    ∧ (999 : ℤ) < 1000 := by
  refine ⟨rfl, rfl, by decide, by decide, by decide⟩

/-- Amended C9: every record's year field is the year-column header text
kept as a string — one of the observed year-column labels — and the
numeric operations (range filter, sorting, min/max) compare these labels
in string order, with integer coercion applied only afterwards to the
two slider bounds.  String order agrees with integer order for the
equal-length canonical labels "2014".."2025" of the intended data (shown
here on the concrete label list), but not for arbitrary numeric labels
(see the counterexample). -/
theorem spec_C9 (t : WideTable) :
    (∀ rec ∈ (load_data t).2.1, rec.year ∈ (load_data t).2.2)
    ∧ py_min_str ["2014", "2015", "2016", "2017", "2018", "2019", "2020",
        "2021", "2022", "2023", "2024", "2025"] = some "2014"
    ∧ py_max_str ["2014", "2015", "2016", "2017", "2018", "2019", "2020",
        "2021", "2022", "2023", "2024", "2025"] = some "2025"
    ∧ slider_bounds ["2014", "2015", "2016", "2017", "2018", "2019", "2020",
        "2021", "2022", "2023", "2024", "2025"] = some (2014, 2025) := by
  refine ⟨?_, by decide, by decide, by decide⟩
  intro rec hrec
  unfold load_data at hrec ⊢
  dsimp only at hrec ⊢
  rw [List.mem_filterMap] at hrec
  obtain ⟨l, hl, hb⟩ := hrec
  unfold melt at hl
  rw [List.mem_flatMap] at hl
  obtain ⟨c, hc, hl'⟩ := hl
  rw [List.mem_map] at hl'
  obtain ⟨r, _, rfl⟩ := hl'
  obtain ⟨b, hb', rfl⟩ := Option.map_eq_some'.mp hb
  exact hc

/-- Witness for C9: the label-membership fact applied at a concrete
table. -/
theorem spec_C9_witness :
    (⟨"A", "2014", 1⟩ : BudgetRecord) ∈
      (load_data ⟨"X", ["2014", "2015"], [⟨"A", [some 1, none]⟩]⟩).2.1 →
    ("2014" : String) ∈
      (load_data ⟨"X", ["2014", "2015"], [⟨"A", [some 1, none]⟩]⟩).2.2 :=
  fun h => (spec_C9 ⟨"X", ["2014", "2015"], [⟨"A", [some 1, none]⟩]⟩).1 _ h

/-!
The wide table is returned unchanged except for the renamed first
column header (claim C10).
-/

/-- Claim C10: the wide table returned by `load_data` is the parsed
input unchanged except that the first column's header becomes
"Department": the year headers and all rows (hence all cell values) are
identical, whatever the original first header was.  The hypothesis that
no other column shares the first column's header is guaranteed by the
CSV parser, which mangles duplicate headers. -/
theorem spec_C10 (t : WideTable) (h : t.deptHeader ∉ t.yearHeaders) :
    (load_data t).1 = ⟨"Department", t.yearHeaders, t.rows⟩ := by
  unfold load_data renameFirst
  dsimp only
  congr 1
  have hfa : ∀ c ∈ t.yearHeaders,
      (if c = t.deptHeader then "Department" else c) = c := by
    intro c hc
    rw [if_neg]
    intro he
    exact h (he ▸ hc)
  exact (List.map_congr_left hfa).trans (List.map_id _)

/-- Witness for C10 at a concrete table whose first header is an
arbitrary string. -/
theorem spec_C10_witness :
    (load_data ⟨"Whatever", ["2014", "2015"], [⟨"A", [some 1, none]⟩]⟩).1 =
      ⟨"Department", ["2014", "2015"], [⟨"A", [some 1, none]⟩]⟩ :=
  spec_C10 ⟨"Whatever", ["2014", "2015"], [⟨"A", [some 1, none]⟩]⟩ (by decide)

/-!
Structure of the record set derived by `load_data` (claim C1).
-/

theorem renameFirst_yearHeaders (t : WideTable)
    (hdep : t.deptHeader ∉ t.yearHeaders) :
    (renameFirst t "Department").yearHeaders = t.yearHeaders := by
  unfold renameFirst
  dsimp only
  refine (List.map_congr_left ?_).trans (List.map_id _)
  intro c hc
  have hne : c ≠ t.deptHeader := fun he => hdep (he ▸ hc)
  exact if_neg hne

theorem load_data_year_cols (t : WideTable)
    (hdep : t.deptHeader ∉ t.yearHeaders) (hD : "Department" ∉ t.yearHeaders) :
    (load_data t).2.2 = t.yearHeaders := by
  unfold load_data
  dsimp only
  rw [renameFirst_yearHeaders t hdep]
  rw [List.filter_eq_self]
  intro c hc
  have hne : c ≠ "Department" := fun he => hD (he ▸ hc)
  simpa using hne

theorem load_data_records_eq (t : WideTable)
    (hdep : t.deptHeader ∉ t.yearHeaders) (hD : "Department" ∉ t.yearHeaders) :
    (load_data t).2.1 = t.yearHeaders.flatMap (fun c =>
      t.rows.filterMap (fun r =>
        (lookupCell t.yearHeaders r.cells c).map
          (fun b => ⟨r.dept, c, b⟩))) := by
  have hyc : (load_data t).2.2 = t.yearHeaders := load_data_year_cols t hdep hD
  unfold load_data at hyc ⊢
  dsimp only at hyc ⊢
  rw [hyc]
  unfold melt
  rw [List.filterMap_flatMap]
  congr 1
  funext c
  rw [List.filterMap_map]
  congr 1
  funext r
  show ((lookupCell (renameFirst t "Department").yearHeaders r.cells c).map
    (fun b => (⟨r.dept, c, b⟩ : BudgetRecord))) = _
  rw [renameFirst_yearHeaders t hdep]

theorem lookupCell_cons_self (h : String) (hs : List String) (c : Option ℚ)
    (cs : List (Option ℚ)) : lookupCell (h :: hs) (c :: cs) h = c := by
  unfold lookupCell
  rw [List.zip_cons_cons, List.lookup_cons]
  simp

theorem lookupCell_cons_ne (h : String) (hs : List String) (c : Option ℚ)
    (cs : List (Option ℚ)) (c' : String) (hne : c' ≠ h) :
    lookupCell (h :: hs) (c :: cs) c' = lookupCell hs cs c' := by
  unfold lookupCell
  rw [List.zip_cons_cons, List.lookup_cons]
  have hbeq : (c' == h) = false := by simpa using hne
  rw [hbeq]

theorem lookupCell_get :
    ∀ (headers : List String) (cells : List (Option ℚ)), headers.Nodup →
      ∀ (j : ℕ) (hj : j < headers.length) (hj' : j < cells.length),
        lookupCell headers cells (headers.get ⟨j, hj⟩) = cells.get ⟨j, hj'⟩
  | [], _, _, j, hj, _ => absurd hj (by simp)
  | h :: hs, [], _, j, hj, hj' => absurd hj' (by simp)
  | h :: hs, c :: cs, hnd, 0, hj, hj' => lookupCell_cons_self h hs c cs
  | h :: hs, c :: cs, hnd, j + 1, hj, hj' => by
    have hjj : j < hs.length := by simpa using hj
    have hmem : hs.get ⟨j, hjj⟩ ∈ hs := List.get_mem hs j hjj
    have hne : (hs.get ⟨j, hjj⟩) ≠ h := by
      intro he
      exact (List.nodup_cons.mp hnd).1 (he ▸ hmem)
    show lookupCell (h :: hs) (c :: cs) (hs.get ⟨j, hjj⟩) = _
    rw [lookupCell_cons_ne h hs c cs _ hne,
      lookupCell_get hs cs (List.nodup_cons.mp hnd).2 j hjj (by simpa using hj')]
    rfl

theorem countP_lookup (headers : List String) :
    ∀ (cells : List (Option ℚ)), headers.Nodup →
      cells.length = headers.length →
      headers.countP (fun c => (lookupCell headers cells c).isSome) =
        cells.countP (fun x => x.isSome) := by
  induction headers with
  | nil =>
    intro cells _ hlen
    have hc : cells = [] := List.length_eq_zero.mp (by simpa using hlen)
    subst hc
    rfl
  | cons h hs ih =>
    intro cells hnd hlen
    match cells with
    | [] => simp at hlen
    | c :: cs =>
      rw [List.countP_cons, List.countP_cons, lookupCell_cons_self h hs c cs]
      have hc : List.countP (fun c' => (lookupCell (h :: hs) (c :: cs) c').isSome) hs =
          List.countP (fun c' => (lookupCell hs cs c').isSome) hs := by
        apply List.countP_congr
        intro c' hc'
        have hne : c' ≠ h := fun he => (List.nodup_cons.mp hnd).1 (he ▸ hc')
        rw [lookupCell_cons_ne h hs c cs c' hne]
      rw [hc, ih cs (List.nodup_cons.mp hnd).2 (by simpa using hlen)]

theorem sum_map_add (l : List WideRow) (f g : WideRow → ℕ) :
    (l.map (fun x => f x + g x)).sum = (l.map f).sum + (l.map g).sum := by
  induction l with
  | nil => rfl
  | cons x xs ih =>
    simp only [List.map_cons, List.sum_cons, ih]
    omega

theorem countP_eq_sum_ite (l : List WideRow) (p : WideRow → Bool) :
    l.countP p = (l.map (fun x => if p x then 1 else 0)).sum := by
  induction l with
  | nil => rfl
  | cons x xs ih =>
    rw [List.countP_cons, List.map_cons, List.sum_cons, ih]
    omega

theorem sum_countP_comm (hdrs : List String) (rows : List WideRow)
    (P : String → WideRow → Bool) :
    (hdrs.map (fun c => rows.countP (P c))).sum =
      (rows.map (fun r => hdrs.countP (fun c => P c r))).sum := by
  induction hdrs with
  | nil =>
    have hz : ∀ r : WideRow, List.countP (fun c => P c r) ([] : List String) = 0 :=
      fun r => rfl
    simp only [List.map_nil, List.sum_nil, hz]
    rw [List.map_const']
    simp
  | cons c cs ih =>
    rw [List.map_cons, List.sum_cons, ih]
    have hrhs : (rows.map (fun r => List.countP (fun c' => P c' r) (c :: cs))).sum =
        (rows.map (fun r =>
          List.countP (fun c' => P c' r) cs + (if P c r then 1 else 0))).sum := by
      congr 1
      apply List.map_congr_left
      intro r _
      rw [List.countP_cons]
    rw [hrhs, sum_map_add rows _ _, countP_eq_sum_ite rows (P c)]
    omega

theorem records_length (t : WideTable)
    (hdep : t.deptHeader ∉ t.yearHeaders) (hD : "Department" ∉ t.yearHeaders)
    (hnd : t.yearHeaders.Nodup)
    (halign : ∀ r ∈ t.rows, r.cells.length = t.yearHeaders.length) :
    (load_data t).2.1.length =
      (t.rows.map (fun r => r.cells.countP (fun x => x.isSome))).sum := by
  rw [load_data_records_eq t hdep hD, List.length_flatMap]
  have h1 : (List.map (List.length ∘ fun c => t.rows.filterMap fun r =>
        (lookupCell t.yearHeaders r.cells c).map
          (fun b => (⟨r.dept, c, b⟩ : BudgetRecord))) t.yearHeaders) =
      t.yearHeaders.map (fun c => t.rows.countP
        (fun r => (lookupCell t.yearHeaders r.cells c).isSome)) := by
    apply List.map_congr_left
    intro c _
    show (t.rows.filterMap _).length = _
    rw [List.length_filterMap_eq_countP]
    apply List.countP_congr
    intro r _
    cases lookupCell t.yearHeaders r.cells c <;> simp
  rw [h1, sum_countP_comm]
  congr 1
  apply List.map_congr_left
  intro r hr
  exact countP_lookup t.yearHeaders r.cells hnd (halign r hr)

theorem two_none_countP :
    ∀ (l : List (Option ℚ)) (j j' : ℕ), j ≠ j' →
      l[j]? = some none → l[j']? = some none →
      2 ≤ l.countP (fun x => x.isNone)
  | [], j, _, _, h, _ => by simp at h
  | x :: xs, 0, 0, hne, _, _ => absurd rfl hne
  | x :: xs, 0, k + 1, _, h1, h2 => by
    have hx : x = none := by simpa using h1
    have hk : xs[k]? = some none := by simpa using h2
    have hmem : (none : Option ℚ) ∈ xs := by
      obtain ⟨hb, he⟩ := List.getElem?_eq_some_iff.mp hk
      exact he ▸ List.getElem_mem hb
    have hpos : 0 < xs.countP (fun c => c.isNone) :=
      List.countP_pos_iff.mpr ⟨none, hmem, rfl⟩
    subst hx
    rw [List.countP_cons]
    simp only [Option.isNone_none, if_pos]
    omega
  | x :: xs, k + 1, 0, hne, h1, h2 => by
    have hx : x = none := by simpa using h2
    have hk : xs[k]? = some none := by simpa using h1
    have hmem : (none : Option ℚ) ∈ xs := by
      obtain ⟨hb, he⟩ := List.getElem?_eq_some_iff.mp hk
      exact he ▸ List.getElem_mem hb
    have hpos : 0 < xs.countP (fun c => c.isNone) :=
      List.countP_pos_iff.mpr ⟨none, hmem, rfl⟩
    subst hx
    rw [List.countP_cons]
    simp only [Option.isNone_none, if_pos]
    omega
  | x :: xs, k + 1, m + 1, hne, h1, h2 => by
    have := two_none_countP xs k m (by omega) (by simpa using h1)
      (by simpa using h2)
    rw [List.countP_cons]
    omega

theorem mem_records_iff (t : WideTable)
    (hdep : t.deptHeader ∉ t.yearHeaders) (hD : "Department" ∉ t.yearHeaders)
    (hnd : t.yearHeaders.Nodup)
    (halign : ∀ r ∈ t.rows, r.cells.length = t.yearHeaders.length)
    (d y : String) :
    (∃ rec ∈ (load_data t).2.1, rec.department = d ∧ rec.year = y) ↔
      ∃ j : ℕ, t.yearHeaders[j]? = some y ∧
        ∃ r ∈ t.rows, r.dept = d ∧ ∃ q : ℚ, r.cells[j]? = some (some q) := by
  rw [load_data_records_eq t hdep hD]
  constructor
  · rintro ⟨rec, hrec, hd, hy⟩
    rw [List.mem_flatMap] at hrec
    obtain ⟨c, hc, hrec⟩ := hrec
    rw [List.mem_filterMap] at hrec
    obtain ⟨r, hr, hmap⟩ := hrec
    rw [Option.map_eq_some'] at hmap
    obtain ⟨b, hb, rfl⟩ := hmap
    obtain ⟨n, hget⟩ := List.get_of_mem hc
    have hlen := halign r hr
    have hcell : lookupCell t.yearHeaders r.cells (t.yearHeaders.get n) =
        r.cells.get ⟨n.1, by omega⟩ :=
      lookupCell_get t.yearHeaders r.cells hnd n.1 n.2 (by omega)
    rw [hget, hb] at hcell
    refine ⟨n.1, ?_, r, hr, hd, b, ?_⟩
    · rw [List.getElem?_eq_getElem n.2]
      rw [Option.some_inj]
      exact hget.trans hy
    · rw [List.getElem?_eq_getElem (show n.1 < r.cells.length by omega)]
      rw [Option.some_inj]
      exact hcell.symm
  · rintro ⟨j, hy, r, hr, hd, q, hq⟩
    obtain ⟨hj, hgety⟩ := List.getElem?_eq_some_iff.mp hy
    obtain ⟨hj', hgetq⟩ := List.getElem?_eq_some_iff.mp hq
    have hcell : lookupCell t.yearHeaders r.cells (t.yearHeaders.get ⟨j, hj⟩) =
        r.cells.get ⟨j, hj'⟩ :=
      lookupCell_get t.yearHeaders r.cells hnd j hj hj'
    have hyy : t.yearHeaders.get ⟨j, hj⟩ = y := by
      rw [← hgety]
      rfl
    have hqq : r.cells.get ⟨j, hj'⟩ = some q := by
      rw [← hgetq]
      rfl
    rw [hyy, hqq] at hcell
    refine ⟨⟨r.dept, y, q⟩, ?_, hd, rfl⟩
    rw [List.mem_flatMap]
    refine ⟨y, ?_, ?_⟩
    · rw [← hyy]
      exact List.get_mem t.yearHeaders j hj
    · rw [List.mem_filterMap]
      exact ⟨r, hr, by rw [hcell]; rfl⟩

theorem filterMap_map_sublist {α β γ : Type} (f : α → Option β) (g : β → γ)
    (h : α → γ) (hfg : ∀ a b, f a = some b → g b = h a) :
    ∀ l : List α, ((l.filterMap f).map g).Sublist (l.map h)
  | [] => List.Sublist.refl _
  | x :: xs => by
    rw [List.map_cons]
    cases hfx : f x with
    | none =>
      rw [List.filterMap_cons_none hfx]
      exact List.Sublist.cons _ (filterMap_map_sublist f g h hfg xs)
    | some b =>
      rw [List.filterMap_cons_some hfx, List.map_cons, hfg x b hfx]
      exact List.Sublist.cons₂ _ (filterMap_map_sublist f g h hfg xs)

theorem flatMap_sublist_congr {α β : Type} (f g : α → List β)
    (hfg : ∀ a, (f a).Sublist (g a)) :
    ∀ l : List α, (l.flatMap f).Sublist (l.flatMap g)
  | [] => List.Sublist.refl _
  | x :: xs => by
    rw [List.flatMap_cons, List.flatMap_cons]
    exact (hfg x).append (flatMap_sublist_congr f g hfg xs)

theorem records_pairs_nodup (t : WideTable)
    (hdep : t.deptHeader ∉ t.yearHeaders) (hD : "Department" ∉ t.yearHeaders)
    (hnd : t.yearHeaders.Nodup)
    (hdept : (t.rows.map (fun r => r.dept)).Nodup) :
    ((load_data t).2.1.map (fun rec => (rec.department, rec.year))).Nodup := by
  rw [load_data_records_eq t hdep hD, List.map_flatMap]
  have hsub : (t.yearHeaders.flatMap (fun c =>
      ((t.rows.filterMap (fun r => (lookupCell t.yearHeaders r.cells c).map
        (fun b => (⟨r.dept, c, b⟩ : BudgetRecord)))).map
          (fun rec => (rec.department, rec.year))))).Sublist
      (t.yearHeaders.flatMap (fun c => t.rows.map (fun r => (r.dept, c)))) := by
    apply flatMap_sublist_congr
    intro c
    apply filterMap_map_sublist
    intro r b hb
    obtain ⟨q, _, rfl⟩ := Option.map_eq_some'.mp hb
    rfl
  apply hsub.nodup
  rw [List.nodup_flatMap]
  constructor
  · intro c _
    have hmm : (t.rows.map (fun r => (r.dept, c))) =
        (t.rows.map (fun r => r.dept)).map (fun d => (d, c)) := by
      rw [List.map_map]
      rfl
    rw [hmm]
    exact hdept.map (fun d d' he => congrArg Prod.fst he)
  · apply hnd.imp
    intro c c' hne x hx hx'
    rw [List.mem_map] at hx hx'
    obtain ⟨r, _, rfl⟩ := hx
    obtain ⟨r', _, he⟩ := hx'
    exact hne (congrArg Prod.snd he).symm

/-- Claim C1: under the structural guarantees of the CSV parser
(pairwise-distinct headers, no year column named like the department
column or "Department", rows aligned with the header row), the derived
record set has (a) exactly D×Y records when every cell is numeric,
(b) no duplicate (department, year) pairs when department names are
unique, and (c) with a single non-numeric cell at row i, column j:
exactly D×Y - 1 records, with every other year of that department still
present and the (department, year) pair of the bad cell absent. -/
theorem spec_C1 (t : WideTable)
    (hdep : t.deptHeader ∉ t.yearHeaders) (hD : "Department" ∉ t.yearHeaders)
    (hnd : t.yearHeaders.Nodup)
    (halign : ∀ r ∈ t.rows, r.cells.length = t.yearHeaders.length) :
    ((∀ r ∈ t.rows, ∀ x ∈ r.cells, x.isSome = true) →
      (load_data t).2.1.length = t.rows.length * t.yearHeaders.length)
    ∧ ((t.rows.map (fun r => r.dept)).Nodup →
        ((load_data t).2.1.map (fun rec => (rec.department, rec.year))).Nodup)
    ∧ (∀ (i j : ℕ) (r0 : WideRow), t.rows[i]? = some r0 →
        r0.cells[j]? = some none →
        (t.rows.map (fun r => r.cells.countP (fun x => x.isNone))).sum = 1 →
        ((load_data t).2.1.length = t.rows.length * t.yearHeaders.length - 1
        ∧ (∀ (j' : ℕ) (y : String), j' ≠ j → t.yearHeaders[j']? = some y →
            ∃ rec ∈ (load_data t).2.1, rec.department = r0.dept ∧ rec.year = y)
        ∧ ((t.rows.map (fun r => r.dept)).Nodup → ∀ y : String,
            t.yearHeaders[j]? = some y →
            ¬ ∃ rec ∈ (load_data t).2.1,
              rec.department = r0.dept ∧ rec.year = y))) := by
  have hsplit : ∀ r ∈ t.rows,
      r.cells.countP (fun x => x.isSome) + r.cells.countP (fun x => x.isNone) =
        t.yearHeaders.length := by
    intro r hr
    have h1 := List.length_eq_countP_add_countP (fun x : Option ℚ => x.isSome) r.cells
    have h2 : List.countP (fun a : Option ℚ => decide ¬a.isSome = true) r.cells =
        List.countP (fun x : Option ℚ => x.isNone) r.cells := by
      apply List.countP_congr
      intro x _
      cases x <;> simp
    rw [h2] at h1
    rw [← h1, halign r hr]
  refine ⟨?_, ?_, ?_⟩
  · intro hfull
    rw [records_length t hdep hD hnd halign]
    have hrow : ∀ r ∈ t.rows, r.cells.countP (fun x => x.isSome) =
        t.yearHeaders.length := by
      intro r hr
      exact (List.countP_eq_length.mpr (hfull r hr)).trans (halign r hr)
    rw [List.map_congr_left hrow, List.map_const', List.sum_replicate,
      smul_eq_mul]
  · exact records_pairs_nodup t hdep hD hnd
  · intro i j r0 hri hcj hone
    obtain ⟨hi, hgeti⟩ := List.getElem?_eq_some_iff.mp hri
    have hmem : r0 ∈ t.rows := hgeti ▸ List.getElem_mem hi
    have hler0 : r0.cells.countP (fun x => x.isNone) ≤ 1 := by
      rw [← hone]
      exact List.single_le_sum (fun x _ => Nat.zero_le x) _
        (List.mem_map.mpr ⟨r0, hmem, rfl⟩)
    refine ⟨?_, ?_, ?_⟩
    · rw [records_length t hdep hD hnd halign]
      have htot : (t.rows.map (fun r => r.cells.countP (fun x => x.isSome))).sum
          + (t.rows.map (fun r => r.cells.countP (fun x => x.isNone))).sum =
            t.rows.length * t.yearHeaders.length := by
        rw [← sum_map_add]
        have : (t.rows.map (fun r => r.cells.countP (fun x => x.isSome) +
            r.cells.countP (fun x => x.isNone))) =
            t.rows.map (fun _ => t.yearHeaders.length) :=
          List.map_congr_left hsplit
        rw [this, List.map_const', List.sum_replicate, smul_eq_mul]
      omega
    · intro j' y hj'j hy
      obtain ⟨hjb', hgety⟩ := List.getElem?_eq_some_iff.mp hy
      have hj'c : j' < r0.cells.length := by
        rw [halign r0 hmem]
        exact hjb'
      have hcell : ∃ q : ℚ, r0.cells[j']? = some (some q) := by
        rcases hx : r0.cells[j'] with _ | q
        · exfalso
          have h2 := two_none_countP r0.cells j' j (fun he => hj'j he)
            (by rw [List.getElem?_eq_getElem hj'c, hx]) hcj
          omega
        · exact ⟨q, by rw [List.getElem?_eq_getElem hj'c, hx]⟩
      obtain ⟨q, hq⟩ := hcell
      exact (mem_records_iff t hdep hD hnd halign r0.dept y).mpr
        ⟨j', hy, r0, hmem, rfl, q, hq⟩
    · intro hdeptnd y hy hex
      obtain ⟨j'', hy'', r', hr', hdept_eq, q, hcell⟩ :=
        (mem_records_iff t hdep hD hnd halign r0.dept y).mp hex
      obtain ⟨hjb, hgety⟩ := List.getElem?_eq_some_iff.mp hy
      obtain ⟨hjb'', hgety''⟩ := List.getElem?_eq_some_iff.mp hy''
      have hjj : j'' = j := by
        have := hnd.get_inj_iff (i := ⟨j'', hjb''⟩) (j := ⟨j, hjb⟩)
        have hgg : t.yearHeaders.get ⟨j'', hjb''⟩ = t.yearHeaders.get ⟨j, hjb⟩ := by
          show t.yearHeaders[j''] = t.yearHeaders[j]
          rw [hgety, hgety'']
        have := this.mp hgg
        exact congrArg Fin.val this
      have hrr : r' = r0 :=
        List.inj_on_of_nodup_map hdeptnd hr' hmem hdept_eq
      subst hjj
      subst hrr
      rw [hcell] at hcj
      simp at hcj

/-- Witness for C1: a full 2×2 table gives 4 records; the same table
with one non-numeric cell at (A, 2015) gives 3 records, keeps
(A, 2014) and loses exactly (A, 2015). -/
theorem spec_C1_witness :
    (load_data ⟨"X", ["2014", "2015"],
      [⟨"A", [some 1, some 2]⟩, ⟨"B", [some 3, some 4]⟩]⟩).2.1.length = 2 * 2
    ∧ (load_data ⟨"X", ["2014", "2015"],
        [⟨"A", [some 1, none]⟩, ⟨"B", [some 3, some 4]⟩]⟩).2.1.length = 2 * 2 - 1
    ∧ (∃ rec ∈ (load_data ⟨"X", ["2014", "2015"],
        [⟨"A", [some 1, none]⟩, ⟨"B", [some 3, some 4]⟩]⟩).2.1,
          rec.department = "A" ∧ rec.year = "2014")
    ∧ ¬ (∃ rec ∈ (load_data ⟨"X", ["2014", "2015"],
        [⟨"A", [some 1, none]⟩, ⟨"B", [some 3, some 4]⟩]⟩).2.1,
          rec.department = "A" ∧ rec.year = "2015") := by
  have hfull := (spec_C1 ⟨"X", ["2014", "2015"],
      [⟨"A", [some 1, some 2]⟩, ⟨"B", [some 3, some 4]⟩]⟩
    (by decide) (by decide) (by decide) (by decide)).1 (by decide)
  have hmiss := (spec_C1 ⟨"X", ["2014", "2015"],
      [⟨"A", [some 1, none]⟩, ⟨"B", [some 3, some 4]⟩]⟩
    (by decide) (by decide) (by decide) (by decide)).2.2
    0 1 ⟨"A", [some 1, none]⟩ (by decide) (by decide) (by decide)
  exact ⟨hfull, hmiss.1, hmiss.2.1 0 "2014" (by decide) (by decide),
    hmiss.2.2 (by decide) "2015" (by decide)⟩
